import Mathlib

/-!
Verification of the screendocs capture pipeline against its design spec.

The definitions below are a shallow embedding of the TypeScript sources:
  - src/utils/security.ts   (SecurityManager: redaction patterns and classifiers)
  - src/utils/selectors.ts  (SelectorGenerator, legacy and corrected variants)
  - src/utils/storage.ts    (StorageManager: persisted document CRUD)
  - src/contents/capture.ts (ActionCapture content script and BackgroundManager
                             with its screenshot queue)

JavaScript strings become Lean String / List Char; JS regex replacement is
modelled by an explicit leftmost, greedy-with-backtracking matcher whose
candidate order mirrors the JS engine's preference order; the asynchronous
storage API becomes pure state-passing over the persisted document; the
environment (capture primitive, host CSS engine) is passed in as oracles.
-/

/-! ## String helpers (models of the JS string primitives used by the code) -/

/-- ASCII lowercasing of a string, model of JS toLowerCase on the ASCII
inputs the code deals with. -/
def strLower (s : String) : String := ⟨s.data.map Char.toLower⟩

/-- Model of JS String.prototype.trim (ASCII whitespace). -/
def strTrim (s : String) : String :=
  ⟨((s.data.dropWhile Char.isWhitespace).reverse.dropWhile Char.isWhitespace).reverse⟩

/-- Model of JS s.split(" ")[0]: the characters before the first space. -/
def firstToken (s : String) : String := ⟨s.data.takeWhile (fun c => c != ' ')⟩

/-- Bool test for a list being a prefix of another, used by substring search. -/
def listPrefixAt : List Char → List Char → Bool
  | [], _ => true
  | _ :: _, [] => false
  | a :: as, b :: bs => a == b && listPrefixAt as bs

/-- Model of JS String.prototype.includes: needle occurs somewhere in hay. -/
def listContains (needle : List Char) : List Char → Bool
  | [] => listPrefixAt needle []
  | h :: t => listPrefixAt needle (h :: t) || listContains needle t

/-- String-level substring test, model of JS includes. -/
def containsSubstr (hay needle : String) : Bool := listContains needle.data hay.data

/-- Truthiness of a JS string-or-absent value: null/undefined and "" are falsy. -/
def truthy : Option String → Bool
  | none => false
  | some s => s != ""

/-! ## Decimal rendering of numbers (model of JS number-to-string conversion,
used by template literals such as the action id `sid_counter`). -/

/-- Little-endian base-10 digits with structural fuel (fuel ≥ n suffices). -/
def natDigitsRevAux : Nat → Nat → List Nat
  | 0, n => [n]
  | fuel + 1, n => if n < 10 then [n] else n % 10 :: natDigitsRevAux fuel (n / 10)

/-- Little-endian base-10 digits of a number. -/
def natDigitsRev (n : Nat) : List Nat := natDigitsRevAux n n

/-- Value of a little-endian digit list. -/
def valOfDigits : List Nat → Nat
  | [] => 0
  | d :: ds => d + 10 * valOfDigits ds

/-- Decimal digit to its character. -/
def digitToChar : Nat → Char
  | 0 => '0' | 1 => '1' | 2 => '2' | 3 => '3' | 4 => '4'
  | 5 => '5' | 6 => '6' | 7 => '7' | 8 => '8' | 9 => '9'
  | _ => '*'

/-- Decimal rendering of a natural number, model of JS ToString(number) for
the nonnegative integers produced by the capture counters. -/
def natToString (n : Nat) : String := ⟨(natDigitsRev n).reverse.map digitToChar⟩

/-! ## Regex engine

A matcher receives the character preceding the current position (for word
boundaries) and the remaining input, and returns the list of lengths it can
consume, in the JS engine's backtracking preference order (greedy first).
The head of the list at the leftmost succeeding position is the JS match. -/

def Matcher : Type := Option Char → List Char → List Nat

/-- Last character of the consumed segment, or the previous context char. -/
def lastOfConsumed (prev : Option Char) (s : List Char) (n : Nat) : Option Char :=
  match (s.take n).getLast? with
  | some c => some c
  | none => prev

/-- Sequencing, preserving preference order. -/
def mSeq (a b : Matcher) : Matcher := fun prev s =>
  (a prev s).flatMap (fun n => (b (lastOfConsumed prev s n) (s.drop n)).map (fun m => n + m))

/-- Empty matcher (consumes nothing). -/
def mEps : Matcher := fun _ _ => [0]

/-- Single character from a class. -/
def mChar (p : Char → Bool) : Matcher := fun _ s =>
  match s with
  | c :: _ => if p c then [1] else []
  | [] => []

/-- Greedy optional: try consuming first, then skipping. -/
def mOpt (a : Matcher) : Matcher := fun prev s => a prev s ++ [0]

/-- Length of the leading run of characters satisfying p. -/
def countLeading (p : Char → Bool) : List Char → Nat
  | [] => 0
  | c :: t => if p c then countLeading p t + 1 else 0

/-- Descending list top, top-1, ..., lo (empty when top < lo). -/
def descRange (top lo : Nat) : List Nat :=
  (List.range (top + 1 - lo)).map (fun i => top - i)

/-- Greedy bounded repetition of a character class \x7bp lo..hi\x7d. -/
def mReps (p : Char → Bool) (lo : Nat) (hi : Option Nat) : Matcher := fun _ s =>
  let run := countLeading p s
  let top := match hi with
    | some h => min h run
    | none => run
  descRange top lo

/-- JS \w word characters. -/
def wordChar (c : Char) : Bool := c.isAlphanum || c == '_'

/-- Word-character test on an optional char (none = string edge, non-word). -/
def isWordOpt : Option Char → Bool
  | some c => wordChar c
  | none => false

/-- JS \b word boundary (zero-width). -/
def mWB : Matcher := fun prev s =>
  if isWordOpt prev != isWordOpt s.head? then [0] else []

/-- Concatenation of a pattern list. -/
def mCat (l : List Matcher) : Matcher := l.foldr mSeq mEps

/-- Leftmost greedy match attempt at the current position: the engine's
first candidate in preference order. -/
def matchAt (m : Matcher) (prev : Option Char) (s : List Char) : Option Nat :=
  (m prev s).head?

/-- Global-replace scan: at each position try the pattern; on a (non-empty)
match emit the replacement of the matched segment and resume after it,
otherwise copy one character. Fuel is structural; one unit per consumed
character suffices. -/
def replaceGo (m : Matcher) (f : List Char → List Char) : Nat → Option Char → List Char → List Char
  | _, _, [] => []
  | 0, _, s => s
  | fuel + 1, prev, c :: rest =>
    match matchAt m prev (c :: rest) with
    | some (n + 1) =>
        f ((c :: rest).take (n + 1)) ++
          replaceGo m f fuel (lastOfConsumed prev (c :: rest) (n + 1)) (rest.drop n)
    | _ => c :: replaceGo m f fuel (some c) rest

/-- Model of JS str.replace(pattern-with-g-flag, f). -/
def regexReplace (m : Matcher) (f : List Char → List Char) (s : String) : String :=
  ⟨replaceGo m f s.data.length none s.data⟩

/-! ## SecurityManager.SENSITIVE_PATTERNS (src/utils/security.ts lines 5-11)
translated pattern by pattern. -/

/-- Character class of the email local part [A-Za-z0-9._%+-]. -/
def emailLocalChar (c : Char) : Bool :=
  c.isAlphanum || c == '.' || c == '_' || c == '%' || c == '+' || c == '-'

/-- Character class of the email domain [A-Za-z0-9.-]. -/
def emailDomainChar (c : Char) : Bool := c.isAlphanum || c == '.' || c == '-'

/-- Character class of the email TLD [A-Z|a-z] (the pipe is in the class as
written in the source). -/
def tldChar (c : Char) : Bool := c.isAlpha || c == '|'

/-- Separator class [-.\s] of the phone pattern. -/
def sepChar (c : Char) : Bool := c == '-' || c == '.' || c.isWhitespace

/-- Separator class [-\s] of the credit-card pattern. -/
def ccSepChar (c : Char) : Bool := c == '-' || c.isWhitespace

/-- /\b[A-Za-z0-9._%+-]+@[A-Za-z0-9.-]+\.[A-Z|a-z]\x7b2,\x7d\b/g -/
def emailMatcher : Matcher := mCat
  [mWB, mReps emailLocalChar 1 none, mChar (fun c => c == '@'),
   mReps emailDomainChar 1 none, mChar (fun c => c == '.'),
   mReps tldChar 2 none, mWB]

/-- /(\+\d\x7b1,3\x7d[-.\s]?)?\(?\d\x7b1,4\x7d\)?[-.\s]?\d\x7b1,4\x7d[-.\s]?\d\x7b1,9\x7d/g -/
def phoneMatcher : Matcher := mCat
  [mOpt (mCat [mChar (fun c => c == '+'), mReps Char.isDigit 1 (some 3), mOpt (mChar sepChar)]),
   mOpt (mChar (fun c => c == '(')),
   mReps Char.isDigit 1 (some 4),
   mOpt (mChar (fun c => c == ')')),
   mOpt (mChar sepChar),
   mReps Char.isDigit 1 (some 4),
   mOpt (mChar sepChar),
   mReps Char.isDigit 1 (some 9)]

/-- /\b\d\x7b4\x7d[-\s]?\d\x7b4\x7d[-\s]?\d\x7b4\x7d[-\s]?\d\x7b4\x7d\b/g -/
def creditCardMatcher : Matcher := mCat
  [mWB, mReps Char.isDigit 4 (some 4), mOpt (mChar ccSepChar),
   mReps Char.isDigit 4 (some 4), mOpt (mChar ccSepChar),
   mReps Char.isDigit 4 (some 4), mOpt (mChar ccSepChar),
   mReps Char.isDigit 4 (some 4), mWB]

/-- /\b\d\x7b3\x7d-\d\x7b2\x7d-\d\x7b4\x7d\b/g -/
def ssnMatcher : Matcher := mCat
  [mWB, mReps Char.isDigit 3 (some 3), mChar (fun c => c == '-'),
   mReps Char.isDigit 2 (some 2), mChar (fun c => c == '-'),
   mReps Char.isDigit 4 (some 4), mWB]

/-- Email replacement: keep first char of the local part and the domain. -/
def emailRepl (m : List Char) : List Char :=
  let dom := (m.dropWhile (fun c => c != '@')).drop 1
  match m.takeWhile (fun c => c != '@') with
  | c :: _ => c :: '*' :: '*' :: '*' :: '@' :: dom
  | [] => '*' :: '*' :: '*' :: '@' :: dom

/-- Phone replacement: mask every digit, keep separators. -/
def phoneRepl (m : List Char) : List Char :=
  m.map (fun c => if c.isDigit then '*' else c)

/-- Credit-card replacement: fixed mask plus the last 4 digits. -/
def creditCardRepl (m : List Char) : List Char :=
  let cleaned := m.filter (fun c => !ccSepChar c)
  ("****-****-****-".data) ++ cleaned.drop (cleaned.length - 4)

/-- SSN replacement: fixed mask string. -/
def ssnRepl (_ : List Char) : List Char := "***-**-****".data

/-- SecurityManager.blurSensitiveText (src/utils/security.ts lines 63-89):
empty strings returned as-is, then the email, phone, credit-card and SSN
substitutions applied in that order. -/
def blurSensitiveText (text : String) : String :=
  if text.data = [] then text
  else
    regexReplace ssnMatcher ssnRepl
      (regexReplace creditCardMatcher creditCardRepl
        (regexReplace phoneMatcher phoneRepl
          (regexReplace emailMatcher emailRepl text)))

/-! ## SecurityManager classifiers (src/utils/security.ts) -/

/-- SecurityManager.SENSITIVE_ATTRIBUTES (lines 14-23). -/
def SENSITIVE_ATTRIBUTES : List String :=
  ["password", "credit-card", "cc-number", "cc-exp", "cc-csc",
   "social-security", "ssn", "tax-id"]

/-- SecurityManager.SENSITIVE_INPUT_TYPES (lines 25-30). -/
def SENSITIVE_INPUT_TYPES : List String :=
  ["password", "email", "tel", "credit-card-number"]

/-- The form-control attributes read by SecurityManager.isSensitiveElement
and getSafeElementValue. -/
structure SecElement where
  tagName : String
  type : String
  autocomplete : String
  name : String
  id : String
  value : String
deriving DecidableEq

/-- /password|pwd|pass/i tested against an already-lowercased name:
substring membership of any alternative. -/
def passwordPatternTest (s : String) : Bool :=
  containsSubstr s "password" || containsSubstr s "pwd" || containsSubstr s "pass"

/-- SecurityManager.isSensitiveElement (lines 32-61): only input tags are
classified; sensitive when the type is in the fixed set, or the (lowercased,
non-empty) autocomplete contains a sensitive keyword, or name-or-id contains
a password-related keyword. -/
def isSensitiveElement (e : SecElement) : Bool :=
  if strLower e.tagName == "input" then
    if SENSITIVE_INPUT_TYPES.contains e.type then true
    else
      let ac := strLower e.autocomplete
      if ac != "" && SENSITIVE_ATTRIBUTES.any (fun a => containsSubstr ac a) then true
      else passwordPatternTest (strLower (if e.name != "" then e.name else e.id))
  else false

/-- SecurityManager.getSafeElementValue (lines 91-102). -/
def getSafeElementValue (e : SecElement) : String :=
  if isSensitiveElement e then
    if e.type == "password" then "••••••••"
    else blurSensitiveText e.value
  else e.value

/-- An element paired with its bounding-rect extent, as scanned by
detectSensitiveAreas. -/
structure RectElem where
  el : SecElement
  width : Nat
  height : Nat
deriving DecidableEq

/-- SecurityManager.detectSensitiveAreas (lines 195-211) applied to the
result of querySelectorAll("input, textarea"): keep the sensitive elements
with a positive rect. -/
def detectSensitiveAreas (inputs : List RectElem) : List RectElem :=
  inputs.filter (fun r => isSensitiveElement r.el && 0 < r.width && 0 < r.height)

/-! ## SelectorGenerator (src/utils/selectors.ts legacy variant, and the
corrected variant with class validation and the safe wrapper) -/

/-- One level of the positional path: lowercased tag, how many same-tag
siblings exist at that level, and the element's 1-based index among them. -/
structure XPathStep where
  tagName : String
  sameTagCount : Nat
  index1 : Nat
deriving DecidableEq

/-- The element attributes and document context read by generateSelector:
data-testid / aria-label (absent = null), id with its document-wide
occurrence count (the querySelectorAll uniqueness probe), className,
textContent, and the ancestor chain (element first, up to body, exclusive)
for the positional fallback. -/
structure SelElement where
  testId : Option String
  ariaLabel : Option String
  id : String
  idCount : Nat
  className : String
  textContent : String
  tagName : String
  isBody : Bool
  chain : List XPathStep
deriving DecidableEq

/-- One path segment of generateXPath: /tag, or /tag[i] when the tag is not
an only-same-tag child. -/
def xpathSegment (st : XPathStep) : String :=
  if st.sameTagCount = 1 then "/" ++ strLower st.tagName
  else "/" ++ strLower st.tagName ++ "[" ++ natToString st.index1 ++ "]"

/-- SelectorGenerator.generateXPath: walk from the element up to body,
prepending a segment per level, anchored at /html/body. -/
def generateXPath (e : SelElement) : String :=
  if e.isBody then "/html/body"
  else "/html/body" ++ String.join (e.chain.reverse.map xpathSegment)

/-- Legacy SelectorGenerator.generateSelector (src/utils/selectors.ts lines
4-34): the class branch embeds the element text in a :contains pattern. -/
def legacyGenerateSelector (e : SelElement) : String :=
  if truthy e.testId then "[data-testid=\"" ++ e.testId.getD "" ++ "\"]"
  else if e.id != "" && e.idCount == 1 then "#" ++ e.id
  else if truthy e.ariaLabel then "[aria-label=\"" ++ e.ariaLabel.getD "" ++ "\"]"
  else if e.className != "" && strTrim e.textContent != ""
          && (strTrim e.textContent).length < 50 then
    "." ++ firstToken e.className ++ ":contains(\"" ++ strTrim e.textContent ++ "\")"
  else generateXPath e

/-- Corrected SelectorGenerator.isValidCSSClass: the class token matches
^[a-zA-Z_-][a-zA-Z0-9_-]*$ . -/
def isValidCSSClass (s : String) : Bool :=
  match s.data with
  | [] => false
  | c :: rest =>
      (c.isAlpha || c == '_' || c == '-')
        && rest.all (fun ch => ch.isAlphanum || ch == '_' || ch == '-')

/-- Corrected SelectorGenerator.generateSelector: the class branch returns
only a bare validated class token and otherwise falls through to the
positional path. -/
def generateSelector (e : SelElement) : String :=
  if truthy e.testId then "[data-testid=\"" ++ e.testId.getD "" ++ "\"]"
  else if e.id != "" && e.idCount == 1 then "#" ++ e.id
  else if truthy e.ariaLabel then "[aria-label=\"" ++ e.ariaLabel.getD "" ++ "\"]"
  else if e.className != "" && strTrim e.textContent != ""
          && (strTrim e.textContent).length < 50 then
    if firstToken e.className != "" && isValidCSSClass (firstToken e.className) then
      "." ++ firstToken e.className
    else generateXPath e
  else generateXPath e

/-- Corrected SelectorGenerator.generateSafeSelector: validate the candidate
in the host query engine (document.querySelector in a try/catch, modelled by
the oracle), otherwise return the positional fallback. -/
def generateSafeSelector (valid : String → Bool) (e : SelElement) : String :=
  if valid (generateSelector e) then generateSelector e else generateXPath e

/-! ## Data model (src/types/index.ts) -/

/-- UserAction.type, a closed variant set. -/
inductive ActionType
  | click
  | input
  | scroll
  | navigation
deriving DecidableEq

/-- UserAction.element. -/
structure ElementInfo where
  tagName : String
  selector : String
  text : Option String
  value : Option String
  attributes : List (String × String)
deriving DecidableEq

/-- UserAction. -/
structure UserAction where
  id : String
  type : ActionType
  timestamp : Nat
  element : ElementInfo
  screenshot : Option String
  description : Option String
deriving DecidableEq

/-- CaptureSession. -/
structure CaptureSession where
  id : String
  title : String
  url : String
  startTime : Nat
  endTime : Option Nat
  actions : List UserAction
  isRecording : Bool
deriving DecidableEq

/-- StorageData.settings. -/
structure StoreSettings where
  autoScreenshot : Bool
  blurPasswords : Bool
  captureScrolling : Bool
deriving DecidableEq

/-- StorageData, the single persisted document. -/
structure StorageData where
  sessions : List CaptureSession
  currentSession : Option String
  settings : StoreSettings
deriving DecidableEq

/-! ## StorageManager (src/utils/storage.ts), each asynchronous
read-modify-write modelled as a pure function on the document. -/

/-- StorageManager.getCurrentSession (lines 27-32): none when the pointer is
falsy, else the first session with the pointed-to id (none if dangling). -/
def getCurrentSession (d : StorageData) : Option CaptureSession :=
  match d.currentSession with
  | none => none
  | some cid => if cid = "" then none else d.sessions.find? (fun s => s.id == cid)

/-- The session-list update of StorageManager.saveSession: replace the first
session with the same id (findIndex hit), else append. -/
def listSave (u : CaptureSession) : List CaptureSession → List CaptureSession
  | [] => [u]
  | s :: rest => if s.id == u.id then u :: rest else s :: listSave u rest

/-- StorageManager.saveSession (lines 34-45). -/
def saveSession (u : CaptureSession) (d : StorageData) : StorageData :=
  { d with sessions := listSave u d.sessions }

/-- StorageManager.setCurrentSession (lines 47-51): sessionId || undefined,
so null and "" both clear the pointer. -/
def setCurrentSession (sid : Option String) (d : StorageData) : StorageData :=
  { d with currentSession :=
      match sid with
      | some s => if s = "" then none else some s
      | none => none }

/-- StorageManager.deleteSession (lines 53-65): filter the list by id and
clear the pointer when it referenced the deleted id. -/
def deleteSession (sid : String) (d : StorageData) : StorageData :=
  { d with
    sessions := d.sessions.filter (fun s => !(s.id == sid)),
    currentSession := if d.currentSession == some sid then none else d.currentSession }

/-- StorageManager.deleteAllSessions (lines 67-72). -/
def deleteAllSessions (d : StorageData) : StorageData :=
  { d with sessions := [], currentSession := none }

/-! ## BackgroundManager (capture.ts, queue variant): session lifecycle and
the screenshot acquisition queue. Tab notifications do not touch the stored
document and are omitted; the capture primitive (tab lookup, foregrounding,
captureVisibleTab) is an oracle giving one outcome per attempt. -/

/-- BackgroundManager.startRecording (lines 395-425), storage effects:
point the current-session pointer at the session, then flip its isRecording
flag and reset startTime through saveSession. -/
def bgStartRecording (sid : String) (now : Nat) (d : StorageData) : StorageData :=
  let d1 := setCurrentSession (some sid) d
  match getCurrentSession d1 with
  | some s => saveSession { s with isRecording := true, startTime := now } d1
  | none => d1

/-- BackgroundManager.stopRecording (lines 441-465), storage effects. -/
def bgStopRecording (now : Nat) (d : StorageData) : StorageData :=
  let d1 :=
    match getCurrentSession d with
    | some s => saveSession { s with isRecording := false, endTime := some now } d
    | none => d
  setCurrentSession none d1

/-- ScreenshotRequest (capture.ts lines 299-305). -/
structure ScreenshotRequest where
  id : String
  actionId : String
  tabId : Nat
  timestamp : Nat
  retryCount : Nat
deriving DecidableEq

/-- BackgroundManager.MAX_RETRIES (line 311). -/
def MAX_RETRIES : Nat := 3

/-- Attach a screenshot to the first action with the given id (the source's
actions.find followed by in-place mutation). -/
def attachScreenshotFirst (aid url : String) : List UserAction → List UserAction
  | [] => []
  | a :: rest =>
      if a.id == aid then { a with screenshot := some url } :: rest
      else a :: attachScreenshotFirst aid url rest

/-- BackgroundManager.takeScreenshot (lines 520-558): cap is none when the
tab check or the capture primitive throws; with an image in hand, failure to
find the current session or the action is also a failure; on success the
screenshot is attached and the session saved. none = the request failed and
the document is untouched. -/
def bgTakeScreenshot (cap : Option String) (d : StorageData)
    (req : ScreenshotRequest) : Option StorageData :=
  match cap with
  | none => none
  | some url =>
    match getCurrentSession d with
    | none => none
    | some s =>
        if s.actions.any (fun a => a.id == req.actionId) then
          some (saveSession { s with actions := attachScreenshotFirst req.actionId url s.actions } d)
        else none

/-- Retry budget still available to a request (used as termination measure of
the queue loop; always at least 1). -/
def requestWeight (r : ScreenshotRequest) : Nat := 4 - min r.retryCount 3

/-- Total remaining budget of a queue. -/
def queueMeasure (q : List ScreenshotRequest) : Nat := (q.map requestWeight).sum

/-- BackgroundManager.processScreenshotQueue (lines 485-518): dequeue from
the head; on success continue; on failure re-enqueue at the tail with an
incremented retryCount while below MAX_RETRIES, else drop. env gives the
capture outcome of the k-th attempt; the returned list is the trace of
dequeued (attempted) requests in order. -/
def processScreenshotQueue (env : Nat → Option String) :
    Nat → List ScreenshotRequest → StorageData → StorageData × List ScreenshotRequest
  | _, [], d => (d, [])
  | k, req :: rest, d =>
    match bgTakeScreenshot (env k) d req with
    | some d2 =>
        let r := processScreenshotQueue env (k + 1) rest d2
        (r.1, req :: r.2)
    | none =>
        if req.retryCount < MAX_RETRIES then
          let r := processScreenshotQueue env (k + 1)
            (rest ++ [{ req with retryCount := req.retryCount + 1 }]) d
          (r.1, req :: r.2)
        else
          let r := processScreenshotQueue env (k + 1) rest d
          (r.1, req :: r.2)
termination_by _ q _ => queueMeasure q
decreasing_by
  · simp only [queueMeasure, List.map_cons, List.sum_cons, requestWeight]
    have h := Nat.min_le_right req.retryCount 3
    omega
  · rename_i hlt
    simp only [MAX_RETRIES] at hlt
    simp only [queueMeasure, List.map_cons, List.sum_cons, List.map_append,
      List.sum_append, List.map_nil, List.sum_nil, requestWeight]
    have h1 : min req.retryCount 3 = req.retryCount := Nat.min_eq_left (by omega)
    have h2 : min (req.retryCount + 1) 3 = req.retryCount + 1 := Nat.min_eq_left (by omega)
    omega
  · simp only [queueMeasure, List.map_cons, List.sum_cons, requestWeight]
    have h := Nat.min_le_right req.retryCount 3
    omega

/-- Number of attempts in a trace that belong to the request with this id. -/
def countId (rid : String) (l : List ScreenshotRequest) : Nat :=
  (l.filter (fun r => r.id == rid)).length

/-- Remaining retry budget of the requests belonging to one id. -/
def idBudget (rid : String) (q : List ScreenshotRequest) : Nat :=
  ((q.filter (fun r => r.id == rid)).map requestWeight).sum

/-! ## ActionCapture content script (capture.ts lines 15-294). -/

/-- The per-page recorder state: Idle/Recording flag, bound session id,
action sequence counter and the scroll throttle state. -/
structure RecorderState where
  isRecording : Bool
  sessionId : Option String
  actionCounter : Nat
  lastScrollTime : Nat
  lastScrollY : Nat
deriving DecidableEq

/-- Fresh content-script state (constructor defaults). -/
def initRecorder : RecorderState := ⟨false, none, 0, 0, 0⟩

/-- ActionCapture.startRecording (lines 80-90): enter Recording and reset
the per-page action counter. -/
def acStartRecording (sid : String) (st : RecorderState) : RecorderState :=
  { st with isRecording := true, sessionId := some sid, actionCounter := 0 }

/-- ActionCapture.stopRecording (lines 92-100). -/
def acStopRecording (st : RecorderState) : RecorderState :=
  { st with isRecording := false, sessionId := none }

/-- The action id template sessionId_counter shared by all four handlers. -/
def mkActionId (sid : String) (n : Nat) : String := sid ++ "_" ++ natToString n

/-- The common capture step of the click/input/navigation handlers: bail out
when not recording or unbound, else pre-increment the counter and build the
action with id sessionId_counter. The element descriptor and description are
computed by the caller from the DOM event. -/
def captureAction (st : RecorderState) (ty : ActionType) (ts : Nat)
    (el : ElementInfo) (desc : String) : Option (UserAction × RecorderState) :=
  match st.sessionId with
  | none => none
  | some sid =>
      if !st.isRecording || sid == "" then none
      else
        some ({ id := mkActionId sid (st.actionCounter + 1), type := ty,
                timestamp := ts, element := el, screenshot := none,
                description := some desc },
              { st with actionCounter := st.actionCounter + 1 })

/-- ActionCapture.saveAction (lines 265-273): read the current session,
push the action, save; silently drop when no current session exists. -/
def saveAction (a : UserAction) (d : StorageData) : StorageData :=
  match getCurrentSession d with
  | none => d
  | some s => saveSession { s with actions := s.actions ++ [a] } d

/-- ActionCapture.handleScroll (lines 182-208): drop when Idle or unbound;
drop when the last recorded scroll is less than 1000 ms old (throttle);
otherwise record a synthetic window action and update the throttle state. -/
def acHandleScroll (st : RecorderState) (t : Nat) (y : Nat) :
    Option UserAction × RecorderState :=
  match st.sessionId with
  | none => (none, st)
  | some sid =>
      if !st.isRecording || sid == "" then (none, st)
      else if st.lastScrollTime != 0 && t - st.lastScrollTime < 1000 then (none, st)
      else
        (some { id := mkActionId sid (st.actionCounter + 1), type := ActionType.scroll,
                timestamp := t,
                element := { tagName := "window", selector := "window",
                             text := some ("Scroll position: " ++ natToString y ++ "px"),
                             value := some (natToString y), attributes := [] },
                screenshot := none,
                description := some ("Défilement vers " ++
                  (if y > st.lastScrollY then "le bas" else "le haut")) },
         { st with actionCounter := st.actionCounter + 1,
                   lastScrollTime := t, lastScrollY := y })

/-- Fold a sequence of (time, scrollY) scroll events through the handler,
collecting the recorded actions in order. -/
def acScrollEvents : RecorderState → List (Nat × Nat) → RecorderState × List UserAction
  | st, [] => (st, [])
  | st, (t, y) :: rest =>
    match acHandleScroll st t y with
    | (some a, st1) =>
        let r := acScrollEvents st1 rest
        (r.1, a :: r.2)
    | (none, st1) => acScrollEvents st1 rest

/-- Fold a sequence of capture events (type, timestamp, element descriptor,
description) through the common capture step of the handlers, collecting the
recorded actions in order; a failed capture (Idle page or unbound session)
leaves the state unchanged, as the handlers return early. -/
def acCaptureEvents :
    RecorderState → List (ActionType × Nat × ElementInfo × String) →
      RecorderState × List UserAction
  | st, [] => (st, [])
  | st, (ty, ts, el, desc) :: rest =>
    match captureAction st ty ts el desc with
    | some (a, st1) =>
        let r := acCaptureEvents st1 rest
        (r.1, a :: r.2)
    | none => acCaptureEvents st rest

/-! ## Concrete data used by the counterexamples and witnesses. -/

/-- Default settings of the persisted document. -/
def exSettings : StoreSettings := ⟨true, true, true⟩

/-- A session currently marked recording. -/
def exSessionA : CaptureSession := ⟨"A", "Session A", "https://a.test", 0, none, [], true⟩

/-- A second, idle session. -/
def exSessionB : CaptureSession := ⟨"B", "Session B", "https://b.test", 0, none, [], false⟩

/-- A stored document where session A is recording and is the current one. -/
def c1Data : StorageData := ⟨[exSessionA, exSessionB], some "A", exSettings⟩

/-- An element descriptor for the capture scenarios. -/
def exElementInfo : ElementInfo := ⟨"button", "#go", some "Go", some "", []⟩

/-- An empty session S marked recording. -/
def exSessionS : CaptureSession := ⟨"S", "Sess", "https://s.test", 0, none, [], true⟩

/-- A stored document whose current session is the empty recording S. -/
def exStore : StorageData := ⟨[exSessionS], some "S", exSettings⟩

/-- The first click captured by a page that just entered Recording for S. -/
def c5Page1 : Option (UserAction × RecorderState) :=
  captureAction (acStartRecording "S" initRecorder) ActionType.click 100 exElementInfo "clic 1"

/-- The first click captured by a second page (or the same page after a
reload) that also just entered Recording for S. -/
def c5Page2 : Option (UserAction × RecorderState) :=
  captureAction (acStartRecording "S" initRecorder) ActionType.click 200 exElementInfo "clic 2"

/-- The action produced by the first page. -/
def c5A1 : UserAction :=
  ⟨mkActionId "S" 1, ActionType.click, 100, exElementInfo, none, some "clic 1"⟩

/-- The action produced by the second page. -/
def c5A2 : UserAction :=
  ⟨mkActionId "S" 1, ActionType.click, 200, exElementInfo, none, some "clic 2"⟩

/-- A screenshot request fresh off the queue. -/
def c6Req : ScreenshotRequest := ⟨"shot_1", "S_1", 7, 50, 0⟩

/-- A non-sensitive text input holding an email address. -/
def c9Elem : SecElement := ⟨"INPUT", "text", "", "note", "", "a@b.com"⟩

/-- A password input. -/
def c9PwElem : SecElement := ⟨"INPUT", "password", "", "", "", "hunter2"⟩

/-- A textarea with every password signal set. -/
def c10Textarea : SecElement :=
  ⟨"TEXTAREA", "password", "current-password", "password", "pwd", "secret"⟩

/-- An element whose best locator is its first CSS class. -/
def c3Elem : SelElement :=
  ⟨none, none, "", 0, "btn primary", "Click me", "BUTTON", false,
   [⟨"BUTTON", 2, 1⟩, ⟨"DIV", 1, 1⟩]⟩

/-! ## Helper lemmas -/

set_option maxRecDepth 20000

/-- The fuelled digit expansion evaluates back to its input once the fuel
dominates it. -/
theorem valOfDigits_natDigitsRevAux :
    ∀ fuel n, n ≤ fuel → valOfDigits (natDigitsRevAux fuel n) = n := by
  intro fuel
  induction fuel with
  | zero =>
      intro n hn
      have h0 : n = 0 := Nat.le_zero.mp hn
      subst h0
      simp [natDigitsRevAux, valOfDigits]
  | succ f ih =>
      intro n hn
      by_cases h : n < 10
      · simp [natDigitsRevAux, h, valOfDigits]
      · have hdiv : n / 10 < n := Nat.div_lt_self (by omega) (by omega)
        have hle : n / 10 ≤ f := by omega
        simp only [natDigitsRevAux, if_neg h, valOfDigits, ih (n / 10) hle]
        exact Nat.mod_add_div n 10

/-- Digits produced by the fuelled expansion are below 10. -/
theorem natDigitsRevAux_lt_ten :
    ∀ fuel n, n ≤ fuel → ∀ d ∈ natDigitsRevAux fuel n, d < 10 := by
  intro fuel
  induction fuel with
  | zero =>
      intro n hn d hd
      have h0 : n = 0 := Nat.le_zero.mp hn
      subst h0
      simp [natDigitsRevAux] at hd
      omega
  | succ f ih =>
      intro n hn d hd
      by_cases h : n < 10
      · simp [natDigitsRevAux, h] at hd
        omega
      · simp only [natDigitsRevAux, if_neg h, List.mem_cons] at hd
        rcases hd with hd | hd
        · have := Nat.mod_lt n (show 0 < 10 by omega)
          omega
        · have hdiv : n / 10 < n := Nat.div_lt_self (by omega) (by omega)
          exact ih (n / 10) (by omega) d hd

/-- The digit expansion is injective. -/
theorem natDigitsRev_injective {m n : Nat} (h : natDigitsRev m = natDigitsRev n) : m = n := by
  have hm := valOfDigits_natDigitsRevAux m m (Nat.le_refl m)
  have hn := valOfDigits_natDigitsRevAux n n (Nat.le_refl n)
  unfold natDigitsRev at h
  rw [← hm, ← hn, h]

/-- digitToChar is injective on decimal digits (checked exhaustively). -/
theorem digitToChar_inj_range :
    ∀ a ∈ List.range 10, ∀ b ∈ List.range 10, digitToChar a = digitToChar b → a = b := by
  decide

/-- Mapping digitToChar over lists of decimal digits is injective. -/
theorem map_digitToChar_inj :
    ∀ l1 l2 : List Nat, (∀ d ∈ l1, d < 10) → (∀ d ∈ l2, d < 10) →
      l1.map digitToChar = l2.map digitToChar → l1 = l2 := by
  intro l1
  induction l1 with
  | nil =>
      intro l2 _ _ h
      cases l2 with
      | nil => rfl
      | cons b bs => simp at h
  | cons a as ih =>
      intro l2 h1 h2 h
      cases l2 with
      | nil => simp at h
      | cons b bs =>
          simp only [List.map_cons, List.cons.injEq] at h
          have ha : a ∈ List.range 10 := List.mem_range.mpr (h1 a (by simp))
          have hb : b ∈ List.range 10 := List.mem_range.mpr (h2 b (by simp))
          have hab : a = b := digitToChar_inj_range a ha b hb h.1
          have : as = bs := ih bs (fun d hd => h1 d (by simp [hd]))
            (fun d hd => h2 d (by simp [hd])) h.2
          rw [hab, this]

/-- The decimal rendering of a counter value is injective. -/
theorem natToString_injective {m n : Nat} (h : natToString m = natToString n) : m = n := by
  unfold natToString at h
  injection h with h
  have hm : ∀ d ∈ (natDigitsRev m).reverse, d < 10 := by
    intro d hd
    exact natDigitsRevAux_lt_ten m m (Nat.le_refl m) d (List.mem_reverse.mp hd)
  have hn : ∀ d ∈ (natDigitsRev n).reverse, d < 10 := by
    intro d hd
    exact natDigitsRevAux_lt_ten n n (Nat.le_refl n) d (List.mem_reverse.mp hd)
  have hrev := map_digitToChar_inj _ _ hm hn h
  exact natDigitsRev_injective (List.reverse_injective hrev)

/-- Appending .data distributes over string append. -/
theorem strData_append (s t : String) : (s ++ t).data = s.data ++ t.data :=
  String.data_append s t

/-- Action ids with the same session id but different counters differ. -/
theorem mkActionId_injective {sid : String} {m n : Nat}
    (h : mkActionId sid m = mkActionId sid n) : m = n := by
  unfold mkActionId at h
  have hd : (sid ++ "_" ++ natToString m).data = (sid ++ "_" ++ natToString n).data := by
    rw [h]
  rw [strData_append, strData_append] at hd
  have h2 : (natToString m).data = (natToString n).data := List.append_cancel_left hd
  have h3 : natToString m = natToString n := by
    cases hm : natToString m with
    | mk a =>
        cases hn : natToString n with
        | mk b =>
            rw [hm, hn] at h2
            simp only at h2
            rw [h2]
  exact natToString_injective h3

/-- A session whose id is not the saved id survives a saveSession. -/
theorem mem_listSave_of_ne :
    ∀ (l : List CaptureSession) (u s : CaptureSession),
      s ∈ l → s.id ≠ u.id → s ∈ listSave u l := by
  intro l
  induction l with
  | nil => intro u s hs _; simp at hs
  | cons a rest ih =>
      intro u s hs hne
      rcases List.mem_cons.mp hs with h | h
      · subst h
        by_cases hid : s.id == u.id
        · exact absurd (by simpa using hid) hne
        · simp [listSave, hid]
      · by_cases hid : a.id == u.id
        · simp [listSave, hid, h]
        · simp only [listSave, hid]
          simpa using Or.inr (ih u s h hne)

/-- The saved session is always in the saved list. -/
theorem self_mem_listSave :
    ∀ (l : List CaptureSession) (u : CaptureSession), u ∈ listSave u l := by
  intro l
  induction l with
  | nil => intro u; simp [listSave]
  | cons a rest ih =>
      intro u
      by_cases hid : a.id == u.id
      · simp [listSave, hid]
      · simp only [listSave, hid]
        simpa using Or.inr (ih u)

/-- Attempt count distributes over a cons of the trace. -/
theorem countId_cons (rid : String) (r : ScreenshotRequest) (l : List ScreenshotRequest) :
    countId rid (r :: l) = (if r.id == rid then 1 else 0) + countId rid l := by
  simp only [countId, List.filter_cons]
  split
  · simp [Nat.add_comm]
  · simp

/-- Attempt count distributes over appended queues. -/
theorem countId_append (rid : String) (l1 l2 : List ScreenshotRequest) :
    countId rid (l1 ++ l2) = countId rid l1 + countId rid l2 := by
  simp [countId, List.filter_append]

/-- idBudget distributes over a cons. -/
theorem idBudget_cons (rid : String) (r : ScreenshotRequest) (l : List ScreenshotRequest) :
    idBudget rid (r :: l) = (if r.id == rid then requestWeight r else 0) + idBudget rid l := by
  simp only [idBudget, List.filter_cons]
  split
  · simp [Nat.add_comm]
  · simp

/-- idBudget distributes over appended queues. -/
theorem idBudget_append (rid : String) (l1 l2 : List ScreenshotRequest) :
    idBudget rid (l1 ++ l2) = idBudget rid l1 + idBudget rid l2 := by
  simp [idBudget, List.filter_append]

/-- Each request always has at least one attempt left. -/
theorem requestWeight_pos (r : ScreenshotRequest) : 1 ≤ requestWeight r := by
  unfold requestWeight
  have := Nat.min_le_right r.retryCount 3
  omega

/-- The queue never attempts a request more often than its remaining budget. -/
theorem processQueue_countId_le_budget (env : Nat → Option String) :
    ∀ (k : Nat) (q : List ScreenshotRequest) (d : StorageData) (rid : String),
      countId rid (processScreenshotQueue env k q d).2 ≤ idBudget rid q := by
  intro k q d
  induction k, q, d using processScreenshotQueue.induct env with
  | case1 k d =>
      intro rid
      simp [processScreenshotQueue, countId, idBudget]
  | case2 k req rest d d2 hbts ih =>
      intro rid
      simp only [processScreenshotQueue, hbts]
      rw [countId_cons, idBudget_cons]
      have h1 := ih rid
      have h2 := requestWeight_pos req
      split <;> omega
  | case3 k req rest d hbts hlt ih =>
      intro rid
      simp only [processScreenshotQueue, hbts, if_pos hlt]
      rw [countId_cons, idBudget_cons]
      have h1 := ih rid
      rw [idBudget_append] at h1
      simp only [MAX_RETRIES] at hlt
      have hb : idBudget rid [{ req with retryCount := req.retryCount + 1 }] =
          if (req.id == rid) = true then 4 - (req.retryCount + 1) else 0 := by
        by_cases hid : (req.id == rid) = true
        · simp [idBudget, hid, requestWeight,
            Nat.min_eq_left (show req.retryCount + 1 ≤ 3 by omega)]
        · simp [idBudget, hid]
      rw [hb] at h1
      have hw1 : requestWeight req = 4 - req.retryCount := by
        unfold requestWeight
        rw [Nat.min_eq_left (by omega)]
      rw [hw1]
      split at h1 <;> split <;> omega
  | case4 k req rest d hbts hge ih =>
      intro rid
      simp only [processScreenshotQueue, hbts, if_neg hge]
      rw [countId_cons, idBudget_cons]
      have h1 := ih rid
      have h2 := requestWeight_pos req
      split <;> omega

/-- When every capture attempt fails, the stored document is untouched. -/
theorem processQueue_allFail (env : Nat → Option String) (henv : ∀ j, env j = none) :
    ∀ (k : Nat) (q : List ScreenshotRequest) (d : StorageData),
      (processScreenshotQueue env k q d).1 = d := by
  intro k q d
  induction k, q, d using processScreenshotQueue.induct env with
  | case1 k d => simp [processScreenshotQueue]
  | case2 k req rest d d2 hbts ih =>
      rw [henv k] at hbts
      simp [bgTakeScreenshot] at hbts
  | case3 k req rest d hbts hlt ih =>
      simp only [processScreenshotQueue, hbts, if_pos hlt]
      exact ih
  | case4 k req rest d hbts hge ih =>
      simp only [processScreenshotQueue, hbts, if_neg hge]
      exact ih

/-- A non-input element is never classified sensitive, whatever its other
attributes. -/
theorem isSensitive_requires_input (e : SecElement)
    (h : strLower e.tagName ≠ "input") : isSensitiveElement e = false := by
  have hb : (strLower e.tagName == "input") = false := beq_eq_false_iff_ne.mpr h
  simp [isSensitiveElement, hb]

/-! ## Claim theorems -/

/-- Claim C2. The spec states that redacting the 16-digit card string
"4111 1111 1111 1234" yields a string ending in "1234" with all preceding
digits masked. In the code the phone pattern is substituted before the
credit-card pattern and already matches the whole digit sequence, masking
every digit, so the credit-card branch (whose replacement would keep the
last four digits) never fires. Evaluating the embedded redaction at the
failing input gives the fully masked string, which does not end in "1234". -/
theorem c2_card_input_fully_masked :
    blurSensitiveText "4111 1111 1111 1234" = "**** **** **** ****" := by decide

/-- Claim C4 counterexample. Text redaction is not idempotent for every
input: on "a@b.coc@d.ee" the first pass rewrites only the left email match
and thereby exposes a fresh email match ("b.coc@d.ee") that the second pass
rewrites, so applying the function twice differs from applying it once. -/
theorem c4_counterexample :
    blurSensitiveText (blurSensitiveText "a@b.coc@d.ee") ≠
      blurSensitiveText "a@b.coc@d.ee" := by decide

/-- Claim C4 (amended): on the cited example string the claimed value and
idempotence do hold: redacting "contact me at a@b.com" gives
"contact me at a***@b.com" and redacting again returns the same string. -/
theorem c4_example_redaction_idempotent :
    blurSensitiveText "contact me at a@b.com" = "contact me at a***@b.com" ∧
    blurSensitiveText "contact me at a***@b.com" = "contact me at a***@b.com" :=
  ⟨by decide, by decide⟩

/-- Claim C9 counterexample. A non-sensitive text input holding the email
"a@b.com" gets its raw value back from getSafeElementValue, although text
redaction would mask it: redaction is not applied to every non-password
element as claimed. -/
theorem c9_counterexample :
    getSafeElementValue c9Elem = "a@b.com" ∧
    blurSensitiveText c9Elem.value = "a***@b.com" ∧
    getSafeElementValue c9Elem ≠ blurSensitiveText c9Elem.value :=
  ⟨by decide, by decide, by decide⟩

/-- Claim C9 (amended): getSafeElementValue returns the fixed mask for
password-typed inputs and the redacted value for the other sensitive
elements; for non-sensitive elements it returns the raw value without
applying text redaction. -/
theorem c9_safe_value_policy (e : SecElement) :
    (strLower e.tagName = "input" → e.type = "password" →
       getSafeElementValue e = "••••••••") ∧
    (isSensitiveElement e = true → e.type ≠ "password" →
       getSafeElementValue e = blurSensitiveText e.value) ∧
    (isSensitiveElement e = false → getSafeElementValue e = e.value) := by
  refine ⟨?_, ?_, ?_⟩
  · intro htag htype
    have hsens : isSensitiveElement e = true := by
      simp [isSensitiveElement, htag, htype, SENSITIVE_INPUT_TYPES]
    simp [getSafeElementValue, hsens, htype]
  · intro hsens htype
    have hb : (e.type == "password") = false := beq_eq_false_iff_ne.mpr htype
    simp [getSafeElementValue, hsens, hb]
  · intro hsens
    simp [getSafeElementValue, hsens]

/-- Claim C9 witness: the theorem applied to a concrete password input. -/
theorem c9_witness : getSafeElementValue c9PwElem = "••••••••" :=
  (c9_safe_value_policy c9PwElem).1 (by decide) (by decide)

/-- Claim C10: the sensitivity classifier returns false for every element
whose lowercased tag name is not "input" — a textarea is never classified
sensitive regardless of its type, autocomplete or password-like name/id —
and consequently every element the sensitive-area scan keeps (out of the
input and textarea elements it queries) is an input. -/
theorem c10_classifier_only_inputs :
    (∀ e : SecElement, strLower e.tagName ≠ "input" → isSensitiveElement e = false) ∧
    (∀ (l : List RectElem) (r : RectElem),
        r ∈ detectSensitiveAreas l → strLower r.el.tagName = "input") := by
  constructor
  · exact fun e h => isSensitive_requires_input e h
  · intro l r hr
    have hp := (List.mem_filter.mp hr).2
    by_contra hne
    rw [isSensitive_requires_input r.el hne] at hp
    simp at hp

/-- Claim C10 witness: the theorem applied to a textarea carrying every
password signal. -/
theorem c10_witness : isSensitiveElement c10Textarea = false :=
  c10_classifier_only_inputs.1 c10Textarea (by decide)

/-- Claim C1 counterexample. Starting recording for session B while session
A is already recording leaves A.isRecording = true: after the operation both
A and B are marked recording, so the at-most-one-recording invariant and the
claimed transition of A to non-recording both fail on the code. -/
theorem c1_counterexample :
    ((bgStartRecording "B" 5 c1Data).sessions.find? (fun s => s.id == "A")).map
        (fun s => s.isRecording) = some true ∧
    ((bgStartRecording "B" 5 c1Data).sessions.filter (fun s => s.isRecording)).length = 2 :=
  ⟨by decide, by decide⟩

/-- Claim C1 (amended): the start-recording operation only rewrites the
session being started — it sets that session's isRecording flag — and every
stored session with a different id survives unchanged; in particular a
previously recording session keeps isRecording = true, so exclusivity is not
enforced by start. -/
theorem c1_start_recording_leaves_others_unchanged
    (d : StorageData) (sid : String) (now : Nat) :
    (∀ s ∈ d.sessions, s.id ≠ sid → s ∈ (bgStartRecording sid now d).sessions) ∧
    (∀ t ∈ d.sessions, t.id = sid → sid ≠ "" →
       ∃ u ∈ (bgStartRecording sid now d).sessions, u.id = sid ∧ u.isRecording = true) := by
  by_cases hsid : sid = ""
  · subst hsid
    have hres : bgStartRecording "" now d = setCurrentSession (some "") d := by
      simp [bgStartRecording, getCurrentSession, setCurrentSession]
    constructor
    · intro s hs _
      rw [hres]
      exact hs
    · intro t _ _ hne
      exact absurd rfl hne
  · have hgc : getCurrentSession (setCurrentSession (some sid) d) =
        d.sessions.find? (fun s => s.id == sid) := by
      simp [getCurrentSession, setCurrentSession, hsid]
    cases hf : d.sessions.find? (fun s => s.id == sid) with
    | none =>
        have hres : bgStartRecording sid now d = setCurrentSession (some sid) d := by
          simp only [bgStartRecording]
          rw [hgc, hf]
        constructor
        · intro s hs _
          rw [hres]
          exact hs
        · intro t ht htid _
          exfalso
          have hno := List.find?_eq_none.mp hf t ht
          simp [htid] at hno
    | some s0 =>
        have hid0 : s0.id = sid := by
          have := List.find?_some hf
          simpa using this
        have hres : bgStartRecording sid now d =
            saveSession { s0 with isRecording := true, startTime := now }
              (setCurrentSession (some sid) d) := by
          simp only [bgStartRecording]
          rw [hgc, hf]
        constructor
        · intro s hs hne
          rw [hres]
          exact mem_listSave_of_ne d.sessions _ s hs (by simpa [hid0] using hne)
        · intro t ht htid _
          refine ⟨{ s0 with isRecording := true, startTime := now }, ?_, hid0, rfl⟩
          rw [hres]
          exact self_mem_listSave d.sessions _

/-- Claim C1 witness: the theorem applied to the two-session document —
session A (still recording) survives the start of B untouched. -/
theorem c1_witness : exSessionA ∈ (bgStartRecording "B" 5 c1Data).sessions :=
  (c1_start_recording_leaves_others_unchanged c1Data "B" 5).1 exSessionA
    (by decide) (by decide)

/-- Claim C8: deleting a session by id keeps exactly the sessions with a
different id; the current-session pointer is cleared precisely when it
referenced the deleted id; and getting the current session yields none
whenever the pointer is unset or dangling — in particular after deleting the
pointed-to session. -/
theorem c8_delete_session_semantics (d : StorageData) (sid : String) :
    (∀ s : CaptureSession,
       s ∈ (deleteSession sid d).sessions ↔ s ∈ d.sessions ∧ s.id ≠ sid) ∧
    ((deleteSession sid d).currentSession =
       if d.currentSession = some sid then none else d.currentSession) ∧
    (∀ e : StorageData, e.currentSession = none → getCurrentSession e = none) ∧
    (∀ (e : StorageData) (cid : String), e.currentSession = some cid →
       (∀ s ∈ e.sessions, s.id ≠ cid) → getCurrentSession e = none) ∧
    (d.currentSession = some sid → getCurrentSession (deleteSession sid d) = none) := by
  refine ⟨?_, ?_, ?_, ?_, ?_⟩
  · intro s
    simp [deleteSession, List.mem_filter]
  · simp [deleteSession]
  · intro e he
    simp [getCurrentSession, he]
  · intro e cid he hall
    by_cases hc : cid = ""
    · simp [getCurrentSession, he, hc]
    · simp only [getCurrentSession, he, if_neg hc]
      apply List.find?_eq_none.mpr
      intro x hx
      simp [hall x hx]
  · intro h
    have hcur : (deleteSession sid d).currentSession = none := by
      simp [deleteSession, h]
    simp [getCurrentSession, hcur]

/-- Claim C8 witness: the theorem applied to the two-session document with
the pointer on A — deleting A empties the pointer lookup and keeps B. -/
theorem c8_witness :
    getCurrentSession (deleteSession "A" c1Data) = none ∧
    exSessionB ∈ (deleteSession "A" c1Data).sessions :=
  ⟨(c8_delete_session_semantics c1Data "A").2.2.2.2 (by decide),
   ((c8_delete_session_semantics c1Data "A").1 exSessionB).mpr ⟨by decide, by decide⟩⟩

/-- Shape of a successful capture step: it requires a bound session id and
produces the id sessionId_counter+1 while bumping the counter. -/
theorem captureAction_some {st st' : RecorderState} {ty : ActionType} {ts : Nat}
    {el : ElementInfo} {desc : String} {a : UserAction}
    (h : captureAction st ty ts el desc = some (a, st')) :
    ∃ sid, st.sessionId = some sid ∧
      a.id = mkActionId sid (st.actionCounter + 1) ∧
      st'.sessionId = some sid ∧ st'.actionCounter = st.actionCounter + 1 := by
  cases hsid : st.sessionId with
  | none => simp [captureAction, hsid] at h
  | some sid =>
      simp only [captureAction, hsid] at h
      by_cases hcond : (!st.isRecording || sid == "") = true
      · rw [if_pos hcond] at h
        simp at h
      · rw [if_neg hcond] at h
        simp only [Option.some.injEq, Prod.mk.injEq] at h
        obtain ⟨ha, hst⟩ := h
        refine ⟨sid, rfl, ?_, ?_, ?_⟩
        · rw [← ha]
        · rw [← hst]
        · rw [← hst]

/-- Claim C5 counterexample. Two pages (equivalently one page before and
after a reload) that both enter Recording for session S each reset their
counter, so their first captured actions are distinct (different timestamps)
yet carry the identical id S_1, and both are appended to the stored session:
the stored action list ends up with a duplicated id. -/
theorem c5_counterexample :
    c5Page1 = some (c5A1, ⟨true, some "S", 1, 0, 0⟩) ∧
    c5Page2 = some (c5A2, ⟨true, some "S", 1, 0, 0⟩) ∧
    c5A1.id = c5A2.id ∧ c5A1 ≠ c5A2 ∧
    (getCurrentSession (saveAction c5A2 (saveAction c5A1 exStore))).map
      (fun s => s.actions.map (fun a => a.id)) = some ["S_1", "S_1"] :=
  ⟨by decide, by decide, rfl, by decide, by decide⟩

/-- Every action recorded in a capture run carries an id built from the
run's session id and a counter value strictly above the starting counter. -/
theorem acCaptureEvents_ids :
    ∀ (evs : List (ActionType × Nat × ElementInfo × String)) (st : RecorderState)
      (sid : String), st.sessionId = some sid →
      ∀ a ∈ (acCaptureEvents st evs).2,
        ∃ n, st.actionCounter < n ∧ a.id = mkActionId sid n := by
  intro evs
  induction evs with
  | nil =>
      intro st sid hsid a ha
      simp [acCaptureEvents] at ha
  | cons ev rest ih =>
      intro st sid hsid a ha
      obtain ⟨ty, ts, el, desc⟩ := ev
      cases hcap : captureAction st ty ts el desc with
      | none =>
          simp only [acCaptureEvents, hcap] at ha
          exact ih st sid hsid a ha
      | some pr =>
          obtain ⟨a0, st1⟩ := pr
          simp only [acCaptureEvents, hcap] at ha
          obtain ⟨sid2, hs2, hid0, hs1, hc1⟩ := captureAction_some hcap
          have hsid2 : sid2 = sid := by
            rw [hsid] at hs2
            exact (Option.some.injEq _ _ ▸ hs2).symm
          subst hsid2
          rcases List.mem_cons.mp ha with hh | hh
          · subst hh
            exact ⟨st.actionCounter + 1, Nat.lt_succ_self _, hid0⟩
          · obtain ⟨n, hn, hidn⟩ := ih st1 sid2 hs1 a hh
            rw [hc1] at hn
            exact ⟨n, by omega, hidn⟩

/-- Claim C5 (amended): within a single recorder instance between counter
resets, action ids are pairwise unique — for every starting state and every
sequence of capture events processed by that instance, the list of recorded
action ids has no duplicate, because the pre-incremented counter strictly
increases across the run and the decimal rendering embedded in
sessionId_counter is injective. Across pages or after a reload the counter
resets and ids collide, as the counterexample shows. -/
theorem c5_ids_unique_within_page (st : RecorderState)
    (evs : List (ActionType × Nat × ElementInfo × String)) :
    ((acCaptureEvents st evs).2.map (fun a => a.id)).Nodup := by
  induction evs generalizing st with
  | nil => simp [acCaptureEvents]
  | cons ev rest ih =>
      obtain ⟨ty, ts, el, desc⟩ := ev
      cases hcap : captureAction st ty ts el desc with
      | none =>
          simp only [acCaptureEvents, hcap]
          exact ih st
      | some pr =>
          obtain ⟨a0, st1⟩ := pr
          simp only [acCaptureEvents, hcap, List.map_cons]
          rw [List.nodup_cons]
          refine ⟨?_, ih st1⟩
          intro hmem
          simp only [List.mem_map] at hmem
          obtain ⟨a, ha, hid⟩ := hmem
          obtain ⟨sid, hs, hid0, hs1, hc1⟩ := captureAction_some hcap
          obtain ⟨n, hn, hidn⟩ := acCaptureEvents_ids rest st1 sid hs1 a ha
          rw [hc1] at hn
          rw [hidn, hid0] at hid
          have heq := mkActionId_injective hid
          omega

/-- Claim C7: while Recording, a scroll event strictly less than 1000 ms
after the last recorded scroll is silently dropped with the throttle state
unchanged; an event at least 1000 ms after it (or with no recorded scroll
yet) is recorded and re-anchors the rolling window; and from a fresh
Recording state two scroll events produce one recorded action when they are
less than one second apart and two otherwise. -/
theorem c7_scroll_throttle :
    (∀ (st : RecorderState) (t y : Nat) (sid : String),
       st.sessionId = some sid → sid ≠ "" → st.isRecording = true →
       st.lastScrollTime ≠ 0 → t < st.lastScrollTime + 1000 →
       acHandleScroll st t y = (none, st)) ∧
    (∀ (st : RecorderState) (t y : Nat) (sid : String),
       st.sessionId = some sid → sid ≠ "" → st.isRecording = true →
       st.lastScrollTime + 1000 ≤ t →
       (acHandleScroll st t y).1.isSome = true ∧
       (acHandleScroll st t y).2.lastScrollTime = t) ∧
    (∀ (st : RecorderState) (t1 y1 t2 y2 : Nat) (sid : String),
       st.sessionId = some sid → sid ≠ "" → st.isRecording = true →
       st.lastScrollTime = 0 → 0 < t1 → t1 ≤ t2 →
       (acScrollEvents st [(t1, y1), (t2, y2)]).2.length =
         if t2 < t1 + 1000 then 1 else 2) := by
  refine ⟨?_, ?_, ?_⟩
  · intro st t y sid hsid hne hrec hlast ht
    have hb : (sid == "") = false := beq_eq_false_iff_ne.mpr hne
    have hcond : (!st.isRecording || sid == "") = false := by simp [hrec, hb]
    have hthr : (st.lastScrollTime != 0 && decide (t - st.lastScrollTime < 1000)) = true := by
      simp only [bne_iff_ne, ne_eq, Bool.and_eq_true, decide_eq_true_eq]
      exact ⟨hlast, by omega⟩
    simp [acHandleScroll, hsid, hcond, hthr]
  · intro st t y sid hsid hne hrec ht
    have hb : (sid == "") = false := beq_eq_false_iff_ne.mpr hne
    have hcond : (!st.isRecording || sid == "") = false := by simp [hrec, hb]
    have hthr : (st.lastScrollTime != 0 && decide (t - st.lastScrollTime < 1000)) = false := by
      by_cases h0 : st.lastScrollTime = 0
      · simp [h0]
      · have hd : decide (t - st.lastScrollTime < 1000) = false :=
          decide_eq_false (by omega)
        simp [hd]
    constructor
    · simp [acHandleScroll, hsid, hcond, hthr]
    · simp [acHandleScroll, hsid, hcond, hthr]
  · intro st t1 y1 t2 y2 sid hsid hne hrec h0 ht1 hle
    have hb : (sid == "") = false := beq_eq_false_iff_ne.mpr hne
    have hcond : (!st.isRecording || sid == "") = false := by simp [hrec, hb]
    have hthr1 : (st.lastScrollTime != 0 && decide (t1 - st.lastScrollTime < 1000)) = false := by
      simp [h0]
    by_cases hlt : t2 < t1 + 1000
    · have hthr2 : ((t1 : Nat) != 0 && decide (t2 - t1 < 1000)) = true := by
        simp only [bne_iff_ne, ne_eq, Bool.and_eq_true, decide_eq_true_eq]
        exact ⟨by omega, by omega⟩
      simp [acScrollEvents, acHandleScroll, hsid, hcond, hthr1, hthr2, hlt]
    · have hthr2 : ((t1 : Nat) != 0 && decide (t2 - t1 < 1000)) = false := by
        have hd : decide (t2 - t1 < 1000) = false := decide_eq_false (by omega)
        simp [hd]
      simp [acScrollEvents, acHandleScroll, hsid, hcond, hthr1, hthr2, hlt]

/-- Claim C7 witness: the theorem applied at concrete states — an event
700 ms after the last recorded scroll is dropped with the state unchanged,
and two events 1500 ms apart from a fresh state both get recorded. -/
theorem c7_witness :
    acHandleScroll ⟨true, some "S", 1, 500, 0⟩ 1200 10 =
      (none, ⟨true, some "S", 1, 500, 0⟩) ∧
    (acScrollEvents ⟨true, some "S", 0, 0, 0⟩ [(1000, 5), (2500, 9)]).2.length = 2 := by
  constructor
  · exact c7_scroll_throttle.1 ⟨true, some "S", 1, 500, 0⟩ 1200 10 "S" rfl
      (by decide) rfl (by decide) (by decide)
  · have h := c7_scroll_throttle.2.2 ⟨true, some "S", 0, 0, 0⟩ 1000 5 2500 9 "S" rfl
      (by decide) rfl rfl (by decide) (by decide)
    simpa using h

/-- Strings are equal once their character lists are. -/
theorem string_data_eq {s t : String} (h : s.data = t.data) : s = t := by
  cases s
  cases t
  exact congrArg String.mk h

/-- Data of a dot-prefixed string. -/
theorem dot_data (c : String) : ("." ++ c).data = '.' :: c.data := by
  rw [strData_append]
  rfl

/-- Cancelling the dot prefix. -/
theorem dot_append_inj {a b : String} (h : ("." ++ a) = ("." ++ b)) : a = b := by
  have hd := congrArg String.data h
  rw [dot_data, dot_data] at hd
  injection hd with h1 h2
  exact string_data_eq h2

/-- A string whose first character is not a dot is no dot-prefixed string. -/
theorem ne_dot_of_head (s : String) (ch : Char) (h : s.data.head? = some ch)
    (hch : ch ≠ '.') (c : String) : s ≠ "." ++ c := by
  intro heq
  rw [heq, dot_data] at h
  simp only [List.head?_cons, Option.some.injEq] at h
  exact hch h.symm

/-- A validated CSS class token consists only of letters, digits,
underscores and hyphens. -/
theorem isValidCSSClass_chars (s : String) (h : isValidCSSClass s = true) :
    ∀ ch ∈ s.data, ch.isAlphanum = true ∨ ch = '_' ∨ ch = '-' := by
  unfold isValidCSSClass at h
  intro ch hch
  cases hs : s.data with
  | nil =>
      rw [hs] at hch
      simp at hch
  | cons c0 rest =>
      rw [hs] at h hch
      simp only [Bool.and_eq_true, Bool.or_eq_true, beq_iff_eq, List.all_eq_true] at h
      obtain ⟨h1, h2⟩ := h
      rcases List.mem_cons.mp hch with hh | hh
      · subst hh
        rcases h1 with (ha | ha) | ha
        · left
          simp [Char.isAlphanum, ha]
        · right; left; exact ha
        · right; right; exact ha
      · rcases h2 ch hh with (ha | ha) | ha
        · left; exact ha
        · right; left; exact ha
        · right; right; exact ha

/-- Claim C3: the selector generator (corrected variant) validates every
candidate — including the class-based ones — in the host query engine
(modelled by the oracle) before returning it and falls back to the
positional XPath-style path when validation fails; and any class-based
selector it ever returns is a bare dot-prefixed validated class identifier
made of letters, digits, underscores and hyphens only, so it cannot embed
free-form element text. -/
theorem c3_class_selector_validated (valid : String → Bool) (e : SelElement) :
    (valid (generateSelector e) = false →
       generateSafeSelector valid e = generateXPath e) ∧
    (valid (generateSelector e) = true →
       generateSafeSelector valid e = generateSelector e) ∧
    (∀ c : String, generateSafeSelector valid e = "." ++ c →
       isValidCSSClass c = true ∧
       ∀ ch ∈ c.data, ch.isAlphanum = true ∨ ch = '_' ∨ ch = '-') := by
  have hxp : (generateXPath e).data.head? = some '/' := by
    unfold generateXPath
    split
    · rfl
    · rfl
  refine ⟨?_, ?_, ?_⟩
  · intro hv
    simp [generateSafeSelector, hv]
  · intro hv
    simp [generateSafeSelector, hv]
  · intro c hc
    have hxne : generateXPath e ≠ "." ++ c := ne_dot_of_head _ '/' hxp (by decide) c
    have hsel : generateSelector e = "." ++ c ∨ generateXPath e = "." ++ c := by
      unfold generateSafeSelector at hc
      split at hc
      · exact Or.inl hc
      · exact Or.inr hc
    rcases hsel with hsel | hsel
    · unfold generateSelector at hsel
      by_cases h1 : truthy e.testId = true
      · rw [if_pos h1] at hsel
        have hne : ("[data-testid=\"" ++ e.testId.getD "" ++ "\"]" : String) ≠ "." ++ c :=
          ne_dot_of_head _ '[' (by rfl) (by decide) c
        exact absurd hsel hne
      rw [if_neg h1] at hsel
      by_cases h2 : (e.id != "" && e.idCount == 1) = true
      · rw [if_pos h2] at hsel
        have hne : ("#" ++ e.id : String) ≠ "." ++ c :=
          ne_dot_of_head _ '#' (by rfl) (by decide) c
        exact absurd hsel hne
      rw [if_neg h2] at hsel
      by_cases h3 : truthy e.ariaLabel = true
      · rw [if_pos h3] at hsel
        have hne : ("[aria-label=\"" ++ e.ariaLabel.getD "" ++ "\"]" : String) ≠ "." ++ c :=
          ne_dot_of_head _ '[' (by rfl) (by decide) c
        exact absurd hsel hne
      rw [if_neg h3] at hsel
      by_cases h4 : (e.className != "" && strTrim e.textContent != ""
          && decide ((strTrim e.textContent).length < 50)) = true
      · rw [if_pos h4] at hsel
        by_cases h5 : (firstToken e.className != ""
            && isValidCSSClass (firstToken e.className)) = true
        · rw [if_pos h5] at hsel
          have hcf : firstToken e.className = c := dot_append_inj hsel
          have h5b := h5
          simp only [Bool.and_eq_true] at h5b
          have hvalid : isValidCSSClass (firstToken e.className) = true := h5b.2
          rw [hcf] at hvalid
          exact ⟨hvalid, isValidCSSClass_chars c hvalid⟩
        · rw [if_neg h5] at hsel
          exact absurd hsel hxne
      · rw [if_neg h4] at hsel
        exact absurd hsel hxne
    · exact absurd hsel hxne

/-- Claim C3 witness: the theorem applied to a concrete element whose
candidate is the class selector ".btn" — a rejecting engine forces the
XPath fallback, and the accepted class selector is a validated token. -/
theorem c3_witness :
    generateSafeSelector (fun _ => false) c3Elem = generateXPath c3Elem ∧
    isValidCSSClass "btn" = true :=
  ⟨(c3_class_selector_validated (fun _ => false) c3Elem).1 rfl,
   ((c3_class_selector_validated (fun _ => true) c3Elem).2.2 "btn" (by decide)).1⟩

/-- Claim C6: for every request processed by the screenshot queue — on a
failed attempt with retryCount below MAX_RETRIES (3) the request is
re-enqueued at the tail with retryCount incremented; on a failed attempt at
the maximum it is dropped and the loop continues with the remaining queue
only; a request that enters the queue once with retryCount 0 is attempted at
most 1 + MAX_RETRIES times in the whole run; and when every capture attempt
fails the stored document — hence the action, with its screenshot still
absent — is left untouched. -/
theorem c6_screenshot_retry_policy :
    (∀ (env : Nat → Option String) (k : Nat) (req : ScreenshotRequest)
       (rest : List ScreenshotRequest) (d : StorageData),
       bgTakeScreenshot (env k) d req = none → req.retryCount < MAX_RETRIES →
       processScreenshotQueue env k (req :: rest) d =
         ((processScreenshotQueue env (k + 1)
             (rest ++ [{ req with retryCount := req.retryCount + 1 }]) d).1,
          req :: (processScreenshotQueue env (k + 1)
             (rest ++ [{ req with retryCount := req.retryCount + 1 }]) d).2)) ∧
    (∀ (env : Nat → Option String) (k : Nat) (req : ScreenshotRequest)
       (rest : List ScreenshotRequest) (d : StorageData),
       bgTakeScreenshot (env k) d req = none → ¬ req.retryCount < MAX_RETRIES →
       processScreenshotQueue env k (req :: rest) d =
         ((processScreenshotQueue env (k + 1) rest d).1,
          req :: (processScreenshotQueue env (k + 1) rest d).2)) ∧
    (∀ (env : Nat → Option String) (k : Nat) (q : List ScreenshotRequest)
       (d : StorageData) (rid : String),
       (∀ r ∈ q, r.retryCount = 0) → countId rid q ≤ 1 →
       countId rid (processScreenshotQueue env k q d).2 ≤ 1 + MAX_RETRIES) ∧
    (∀ (env : Nat → Option String) (k : Nat) (q : List ScreenshotRequest)
       (d : StorageData),
       (∀ j, env j = none) → (processScreenshotQueue env k q d).1 = d) := by
  refine ⟨?_, ?_, ?_, ?_⟩
  · intro env k req rest d hb hlt
    simp only [processScreenshotQueue, hb, if_pos hlt]
  · intro env k req rest d hb hge
    simp only [processScreenshotQueue, hb, if_neg hge]
  · intro env k q d rid hzero hcnt
    have hbound := processQueue_countId_le_budget env k q d rid
    have hfil : idBudget rid q ≤ 4 := by
      unfold countId at hcnt
      unfold idBudget
      cases hq : q.filter (fun r => r.id == rid) with
      | nil => simp
      | cons r0 rtl =>
          have hr0 : r0 ∈ q := (List.mem_filter.mp (hq ▸ List.mem_cons_self r0 rtl)).1
          have hz : r0.retryCount = 0 := hzero r0 hr0
          rw [hq] at hcnt
          cases rtl with
          | cons r1 rtl2 => simp at hcnt
          | nil =>
              simp only [List.map_cons, List.map_nil, List.sum_cons, List.sum_nil]
              unfold requestWeight
              rw [hz]
              simp
    simp only [MAX_RETRIES]
    omega
  · intro env k q d henv
    exact processQueue_allFail env henv k q d

/-- Claim C6 witness: the theorem applied to a one-request queue in an
environment where every capture fails — the request is attempted at most
four times and the stored document is unchanged. -/
theorem c6_witness :
    countId "shot_1" (processScreenshotQueue (fun _ => none) 0 [c6Req] exStore).2 ≤
      1 + MAX_RETRIES ∧
    (processScreenshotQueue (fun _ => none) 0 [c6Req] exStore).1 = exStore :=
  ⟨c6_screenshot_retry_policy.2.2.1 (fun _ => none) 0 [c6Req] exStore "shot_1"
      (by decide) (by decide),
   c6_screenshot_retry_policy.2.2.2 (fun _ => none) 0 [c6Req] exStore (fun _ => rfl)⟩
